import Mathlib

/-!
Shallow embedding of `src/chrome_driver.py` (a chromedriver provisioning
utility) and proofs about its behaviour.  Pure string manipulation is
translated directly; OS and network effects (subprocess output, HTTP
responses, the file system, the process environment) are modelled by an
explicit read-only `World` oracle, an explicit `FS` state threaded through
the functions, and a trace of network `Event`s.
-/

namespace ChromeDriver

/-- Models Python `needle` being a prefix of `hay` on character lists
(`hay.startswith(needle)` / `hay.find(needle) == 0`). -/
def listStartsWith : List Char → List Char → Bool
  | [], _ => true
  | _ :: _, [] => false
  | a :: as, b :: bs => a == b && listStartsWith as bs

/-- Models the Python substring test `needle in hay` on character lists
(used by `install` on the PATH variable, line 27 of the source). -/
def listContains (needle : List Char) : List Char → Bool
  | [] => needle.isEmpty
  | c :: rest => listStartsWith needle (c :: rest) || listContains needle rest

/-- Number of positions of `hay` at which `needle` occurs as a substring. -/
def countOcc (needle : List Char) : List Char → Nat
  | [] => 0
  | c :: rest => (if listStartsWith needle (c :: rest) then 1 else 0) + countOcc needle rest

/-- Models Python `s.startswith(p)` (and `s.find(p) == 0`). -/
def strStartsWith (s p : String) : Bool :=
  listStartsWith p.data s.data

/-- Models Python `s.split(sep)[0]`: the characters of `s` before the first
occurrence of the separator character. -/
def firstSegment (sep : Char) (s : String) : String :=
  String.mk (s.data.takeWhile (fun c => c != sep))

/-- Source `get_major_version` (line 128): `version.split('.')[0]`. -/
def get_major_version (version : String) : String :=
  firstSegment '.' version

/-- Pure core of source `get_matched_chromedriver_version` (lines 132-141):
the network fetch and XML parse are abstracted into the in-order list of
`Key` texts of the remote index document; the loop body is translated
directly (`k.text.find(major + '.') == 0` then `k.text.split('/')[0]`). -/
def get_matched_chromedriver_version (version : String) : List String → Option String
  | [] => none
  | k :: ks =>
    if strStartsWith k (get_major_version version ++ ".") then
      some (firstSegment '/' k)
    else
      get_matched_chromedriver_version version ks

/-- Character class `[\d.]` of the version-extraction regex in
`check_version` (line 81). -/
def isVerChar (c : Char) : Bool :=
  c.isDigit || c == '.'

/-- Models `re.match(r'.*?([\d.]+).*?', out)[1]` on the character list of the
output: the lazy `.*?` (which cannot cross a newline) skips to the first
digit-or-dot character and the greedy `[\d.]+` captures the maximal run from
there; `none` models a failed match (which makes `check_version` hit its
`except` clause). -/
def extractFrom : List Char → Option (List Char)
  | [] => none
  | c :: cs =>
    if isVerChar c then some (c :: cs.takeWhile isVerChar)
    else if c == '\n' then none
    else extractFrom cs

/-- Version substring extracted by `check_version` from the binary's output. -/
def extract_version (s : String) : Option String :=
  (extractFrom s.data).map String.mk

/-- State of the driver binary file probed by `check_version`: whether it
exists, whether the current user may execute it, and the stdout it produces
when run with the `-v` flag. -/
structure LocalBinary where
  fileExists : Bool
  executable : Bool
  output : String
  deriving DecidableEq

/-- Models `subprocess.check_output([binary, '-v'])` (line 80): the
invocation succeeds and yields the binary's output exactly when the file
exists and is executable; `none` models the raised exception otherwise. -/
def invoke_version_flag (b : LocalBinary) : Option String :=
  if b.fileExists && b.executable then some b.output else none

/-- Source `check_version` (lines 78-86): run the binary with `-v`, extract
the numeric-and-dot substring of its output, compare for string equality
with `required_version`; every exception is caught and yields `false`. -/
def check_version (b : LocalBinary) (required_version : String) : Bool :=
  match invoke_version_flag b with
  | none => false
  | some out =>
    match extract_version out with
    | none => false
    | some version => version == required_version

/-- Source `get_platform_architecture` (lines 44-56), as a function of
`sys.platform` and `sys.maxsize`; the `raise RuntimeError` becomes the
`Except.error` branch. -/
def get_platform_architecture (sysPlatform : String) (maxsize : Nat) :
    Except String (String × String) :=
  if strStartsWith sysPlatform "linux" && decide (2 ^ 32 < maxsize) then
    Except.ok ("linux", "64")
  else if sysPlatform == "darwin" then
    Except.ok ("mac", "64")
  else if strStartsWith sysPlatform "win" then
    Except.ok ("win", "32")
  else
    Except.error "Could not determine chromedriver download URL for this platform."

/-- Source `get_chromedriver_filename` (lines 32-35). -/
def get_chromedriver_filename (sysPlatform : String) : String :=
  if strStartsWith sysPlatform "win" then "chromedriver.exe" else "chromedriver"

/-- Source `get_variable_separator` (lines 38-41). -/
def get_variable_separator (sysPlatform : String) : String :=
  if strStartsWith sysPlatform "win" then ";" else ":"

/-- Source `get_chromedriver_url` (lines 59-65); propagates the
`RuntimeError` of `get_platform_architecture` when the platform is
unsupported. -/
def get_chromedriver_url (sysPlatform : String) (maxsize : Nat) (version : String)
    (no_ssl : Bool) : Except String String :=
  let base_url :=
    if no_ssl then "http://chromedriver.storage.googleapis.com/"
    else "https://chromedriver.storage.googleapis.com/"
  match get_platform_architecture sysPlatform maxsize with
  | Except.error e => Except.error e
  | Except.ok (platform, architecture) =>
    Except.ok (base_url ++ version ++ "/chromedriver_" ++ platform ++ architecture ++ ".zip")

/-- Network calls performed during a run, in order. -/
inductive Event where
  /-- GET of the remote index document in `get_matched_chromedriver_version`. -/
  | indexGet
  /-- GET of the versioned driver archive in `download_chromedriver`. -/
  | archiveGet
  deriving DecidableEq

deriving instance DecidableEq for Except

/-- Read-only oracle for the outside world observed by one run:
`sys.platform` and `sys.maxsize`, the outcome of `get_chrome_version`
(`none` models the falsy "browser not installed" result), the in-order
`Key` texts of the remote index, `os.path.isdir` of the supplied target
path, the directory of the module file (used when no path is supplied),
the stdout of invoking the pre-existing local driver with `-v`, the
archive GET outcome (`Except.error` models a transport error /
`URLError`, `Except.ok code` an HTTP response with that status), and the
mode bits `zipfile.extract` gives the extracted file. -/
structure World where
  sysPlatform : String
  maxsize : Nat
  chromeVersion : Option String
  indexKeys : List String
  pathIsDir : Bool
  moduleDir : String
  localOutput : String
  archiveResult : Except Unit Nat
  extractMode : Nat
  deriving DecidableEq

/-- File-system state touched by `download_chromedriver`: whether the
version-named directory exists, and the driver file's permission bits
(`none` when the file is absent). -/
structure FS where
  dirExists : Bool
  fileMode : Option Nat
  deriving DecidableEq

/-- Models `os.access(file, os.X_OK)` for the (owning) current user:
true exactly when the file exists and its owner-execute bit is set. -/
def accessXOk : Option Nat → Bool
  | none => false
  | some mode => mode &&& 0o100 != 0

/-- Lines 194-195 of the source: `if not os.access(..., X_OK):
os.chmod(..., 0o744)` — `chmod` replaces the mode bits with `0o744`. -/
def fixExecutable (fs : FS) : FS :=
  if accessXOk fs.fileMode then fs else { fs with fileMode := some 0o744 }

/-- Python truthiness of the optional `path` argument (`if path:`). -/
def pathTruthy : Option String → Bool
  | none => false
  | some s => s != ""

/-- Models `os.path.join` for the relative second components used here. -/
def pathJoin (a b : String) : String :=
  a ++ "/" ++ b

/-- Models `os.path.dirname`: the characters before the last `/`. -/
def dirname (s : String) : String :=
  String.mk (((s.data.reverse.dropWhile (fun c => c != '/')).drop 1).reverse)

/-- Source `download_chromedriver` (lines 152-196) over the `World` oracle
and `FS` state.  `get_chrome_version` (which first calls
`get_platform_architecture` and so propagates its `RuntimeError`) is
abstracted into `w.chromeVersion`; the index fetch and archive fetch append
`Event`s to the returned trace.  The result is `Except.error` for a raised
exception, `Except.ok none` for the soft `return None` paths, and
`Except.ok (some filepath)` on success. -/
def download_chromedriver (path : Option String) (no_ssl : Bool) (w : World) (fs : FS) :
    Except String (Option String) × FS × List Event :=
  match get_platform_architecture w.sysPlatform w.maxsize with
  | Except.error e => (Except.error e, fs, [])
  | Except.ok _ =>
  match w.chromeVersion with
  | none => (Except.ok none, fs, [])
  | some chrome_version =>
  if chrome_version == "" then (Except.ok none, fs, []) else
  match get_matched_chromedriver_version chrome_version w.indexKeys with
  | none => (Except.ok none, fs, [Event.indexGet])
  | some chromedriver_version =>
  let major_version := get_major_version chromedriver_version
  if pathTruthy path && !w.pathIsDir then
    (Except.error ("Invalid path: " ++ path.getD ""), fs, [Event.indexGet])
  else
    let base := if pathTruthy path then path.getD "" else w.moduleDir
    let chromedriver_dir := pathJoin base major_version
    let chromedriver_filename := get_chromedriver_filename w.sysPlatform
    let chromedriver_filepath := pathJoin chromedriver_dir chromedriver_filename
    if !fs.fileMode.isSome ||
        !check_version ⟨fs.fileMode.isSome, accessXOk fs.fileMode, w.localOutput⟩
          chromedriver_version then
      let fs1 : FS := if fs.dirExists then fs else { fs with dirExists := true }
      match get_chromedriver_url w.sysPlatform w.maxsize chromedriver_version no_ssl with
      | Except.error e => (Except.error e, fs1, [Event.indexGet])
      | Except.ok url =>
      match w.archiveResult with
      | Except.error _ =>
        (Except.error ("Failed to download chromedriver archive: " ++ url), fs1,
          [Event.indexGet, Event.archiveGet])
      | Except.ok code =>
        if code != 200 then
          (Except.error ("Failed to download chromedriver archive: " ++ url), fs1,
            [Event.indexGet, Event.archiveGet])
        else
          let fs2 : FS := { fs1 with fileMode := some w.extractMode }
          (Except.ok (some chromedriver_filepath), fixExecutable fs2,
            [Event.indexGet, Event.archiveGet])
    else
      (Except.ok (some chromedriver_filepath), fixExecutable fs, [Event.indexGet])

/-- PATH-update step of `install` (lines 25-28), extracted: append when the
variable is unset, no-op when the directory already occurs as a substring,
otherwise prepend with the platform separator. -/
def env_install (dir sep : String) (env : Option String) : Option String :=
  match env with
  | none => some dir
  | some p => if listContains dir.data p.data then some p else some (dir ++ sep ++ p)

/-- Source `install` (lines 17-29) over the same oracle and state, also
threading the process `PATH` variable (`none` when unset). -/
def install (cwd : Bool) (path : Option String) (no_ssl : Bool) (cwdDir : String)
    (w : World) (fs : FS) (env : Option String) :
    Except String (Option String) × FS × Option String × List Event :=
  let path := if cwd then some cwdDir else path
  match download_chromedriver path no_ssl w fs with
  | (Except.error e, fs1, evs) => (Except.error e, fs1, env, evs)
  | (Except.ok none, fs1, evs) => (Except.ok none, fs1, env, evs)
  | (Except.ok (some fp), fs1, evs) =>
    if fp == "" then (Except.ok none, fs1, env, evs)
    else
      (Except.ok (some fp), fs1,
        env_install (dirname fp) (get_variable_separator w.sysPlatform) env, evs)

/-- Closed set of supported platforms, following the spec's contract for the
Platform Detector: `{linux-64bit, mac, windows}`, expressed with the same
tests the detector performs on `sys.platform` and `sys.maxsize`. -/
def supported_platform (sysPlatform : String) (maxsize : Nat) : Bool :=
  (strStartsWith sysPlatform "linux" && decide (2 ^ 32 < maxsize)) ||
    sysPlatform == "darwin" || strStartsWith sysPlatform "win"

/-- C1: for every installed version string and every remote index key list,
`get_matched_chromedriver_version` returns the leading path segment (the
part before the first `/`) of the first key, in index order, whose text
starts with the major version followed by a dot, and `none` when no key
matches — a linear first-match scan, not a newest/best selection. -/
theorem remote_resolver_first_match (version : String) (keys : List String) :
    get_matched_chromedriver_version version keys =
      (keys.find? (fun k => strStartsWith k (get_major_version version ++ "."))).map
        (firstSegment '/') := by
  induction keys with
  | nil => rfl
  | cons k ks ih =>
    cases h : strStartsWith k (get_major_version version ++ ".") <;>
      simp [get_matched_chromedriver_version, List.find?, h, ih]

/-- C2: `check_version` returns `true` exactly when the file exists, is
executable, and the numeric-and-dot substring extracted from the output of
invoking it with the version flag equals the required version; every
invocation failure or malformed output yields `false` (the function is
total, so it never raises). -/
theorem check_version_iff (b : LocalBinary) (required : String) :
    check_version b required = true ↔
      b.fileExists = true ∧ b.executable = true ∧
        extract_version b.output = some required := by
  unfold check_version invoke_version_flag
  cases h1 : b.fileExists <;> cases h2 : b.executable <;> simp [h1, h2]
  cases hx : extract_version b.output <;> simp [hx]

/-- C5: for every `(sys.platform, sys.maxsize)` input, the Platform Detector
returns a pair from the closed three-element set when the platform is
supported, and fails with the fatal `RuntimeError` otherwise — no fallback
path exists. -/
theorem platform_detector_closed_set (sysPlatform : String) (maxsize : Nat) :
    if supported_platform sysPlatform maxsize then
      get_platform_architecture sysPlatform maxsize = Except.ok ("linux", "64") ∨
      get_platform_architecture sysPlatform maxsize = Except.ok ("mac", "64") ∨
      get_platform_architecture sysPlatform maxsize = Except.ok ("win", "32")
    else
      get_platform_architecture sysPlatform maxsize =
        Except.error "Could not determine chromedriver download URL for this platform." := by
  unfold supported_platform get_platform_architecture
  cases h1 : strStartsWith sysPlatform "linux" <;>
    cases h2 : decide (2 ^ 32 < maxsize) <;>
      cases h3 : sysPlatform == "darwin" <;>
        cases h4 : strStartsWith sysPlatform "win" <;>
          simp [h1, h2, h3, h4]

/-- C9: when the use-current-working-directory flag is set, `install`
ignores the explicit path argument entirely — any two path arguments give
identical results. -/
theorem install_cwd_ignores_path (p q : Option String) (no_ssl : Bool) (cwdDir : String)
    (w : World) (fs : FS) (env : Option String) :
    install true p no_ssl cwdDir w fs env = install true q no_ssl cwdDir w fs env := by
  unfold install
  rfl

/-- Prepending a list to anything leaves it a prefix. -/
theorem listStartsWith_append (xs ys : List Char) : listStartsWith xs (xs ++ ys) = true := by
  induction xs with
  | nil => rfl
  | cons a as ih => simp [listStartsWith, ih]

/-- A string that starts with the needle contains the needle. -/
theorem listContains_of_startsWith (n h : List Char) (hp : listStartsWith n h = true) :
    listContains n h = true := by
  cases h with
  | nil =>
    cases n with
    | nil => rfl
    | cons a as => simp [listStartsWith] at hp
  | cons c rest => simp [listContains, hp]

/-- A contained nonempty needle occurs at least once. -/
theorem countOcc_pos (n h : List Char) (hn : n ≠ []) (hc : listContains n h = true) :
    1 ≤ countOcc n h := by
  induction h with
  | nil =>
    cases n with
    | nil => exact absurd rfl hn
    | cons a as => simp [listContains, List.isEmpty] at hc
  | cons c rest ih =>
    simp only [listContains, Bool.or_eq_true] at hc
    rcases hc with hp | hcon
    · simp [countOcc, hp]
    · have h1 := ih hcon
      simp only [countOcc]
      omega

/-- A nonempty string has a nonempty character list. -/
theorem data_ne_nil_of_ne_empty (s : String) (hs : s ≠ "") : s.data ≠ [] := by
  intro h
  exact hs (String.ext (h.trans rfl))

/-- C3: in every run where the Installed-Version Reader yields the absence
signal (on a supported platform, so that the reader itself does not raise),
both `download_chromedriver` and `install` return the absence signal with an
empty network trace and an untouched file system and environment. -/
theorem absent_browser_skips_network (cwd : Bool) (path : Option String) (no_ssl : Bool)
    (cwdDir : String) (w : World) (fs : FS) (env : Option String) (pa : String × String)
    (hplat : get_platform_architecture w.sysPlatform w.maxsize = Except.ok pa)
    (habs : w.chromeVersion = none ∨ w.chromeVersion = some "") :
    download_chromedriver path no_ssl w fs = (Except.ok none, fs, []) ∧
    install cwd path no_ssl cwdDir w fs env = (Except.ok none, fs, env, []) := by
  have hd : ∀ p' : Option String,
      download_chromedriver p' no_ssl w fs = (Except.ok none, fs, []) := by
    intro p'
    unfold download_chromedriver
    rw [hplat]
    rcases habs with h | h <;> simp [h]
  refine ⟨hd path, ?_⟩
  unfold install
  simp [hd]

/-- Concrete world for the C3 witness: supported platform, browser absent. -/
def wAbsent : World :=
  { sysPlatform := "linux", maxsize := 2 ^ 63, chromeVersion := none, indexKeys := [],
    pathIsDir := true, moduleDir := "/opt/app", localOutput := "",
    archiveResult := Except.ok 200, extractMode := 0o666 }

/-- Initial file-system state for the C3 witness. -/
def fsAbsent : FS := { dirExists := false, fileMode := none }

/-- Witness for C3 at a concrete world with no installed browser. -/
theorem absent_browser_skips_network_witness :
    download_chromedriver none false wAbsent fsAbsent = (Except.ok none, fsAbsent, []) ∧
    install false none false "/cwd" wAbsent fsAbsent (some "/usr/bin") =
      (Except.ok none, fsAbsent, some "/usr/bin", []) :=
  absent_browser_skips_network false none false "/cwd" wAbsent fsAbsent (some "/usr/bin")
    ("linux", "64") (by decide) (Or.inl rfl)

/-- C4, counterexample: starting from a PATH value that already holds the
directory twice, two invocations of the PATH-update step (both no-ops, since
the membership test is a substring test) leave two occurrences, not exactly
one. -/
theorem env_install_twice_not_single_occurrence :
    ¬ countOcc "/x".data
        (((env_install "/x" ":" (env_install "/x" ":" (some "/x:/x"))).getD "").data) = 1 := by
  decide

/-- C4, amended: the PATH-update step of `install` is idempotent as a
function — a second invocation with the same directory is a no-op — and the
resulting variable contains at least one occurrence of the directory;
exactly one occurrence is not guaranteed, because a pre-existing value may
already contain the directory several times (see the counterexample). -/
theorem env_install_idempotent (dir sep : String) (v : Option String) (hd : dir ≠ "") :
    env_install dir sep (env_install dir sep v) = env_install dir sep v ∧
    1 ≤ countOcc dir.data (((env_install dir sep v).getD "").data) := by
  have hne : dir.data ≠ [] := data_ne_nil_of_ne_empty dir hd
  have hself : listContains dir.data dir.data = true := by
    apply listContains_of_startsWith
    have h1 := listStartsWith_append dir.data []
    simpa using h1
  cases v with
  | none =>
    refine ⟨?_, ?_⟩
    · simp [env_install, hself]
    · simpa [env_install] using countOcc_pos dir.data dir.data hne hself
  | some p =>
    by_cases hc : listContains dir.data p.data = true
    · refine ⟨?_, ?_⟩
      · simp [env_install, hc]
      · simpa [env_install, hc] using countOcc_pos dir.data p.data hne hc
    · have hdata : (dir ++ sep ++ p).data = dir.data ++ (sep.data ++ p.data) := by
        simp [String.data_append]
      have hpre : listStartsWith dir.data (dir ++ sep ++ p).data = true := by
        rw [hdata]
        exact listStartsWith_append dir.data (sep.data ++ p.data)
      have hcon : listContains dir.data (dir ++ sep ++ p).data = true :=
        listContains_of_startsWith _ _ hpre
      have hcon2 : listContains dir.data (dir.data ++ (sep.data ++ p.data)) = true := by
        rw [← hdata]
        exact hcon
      refine ⟨?_, ?_⟩
      · simp [env_install, hc, hcon2]
      · simpa [env_install, hc] using
          countOcc_pos dir.data (dir ++ sep ++ p).data hne hcon

/-- Witness for C4 (amended) at a concrete directory and PATH value. -/
theorem env_install_idempotent_witness :
    "/x" ≠ "" ∧
    (env_install "/x" ":" (env_install "/x" ":" (some "/y:/z")) =
        env_install "/x" ":" (some "/y:/z") ∧
      1 ≤ countOcc "/x".data (((env_install "/x" ":" (some "/y:/z")).getD "").data)) :=
  ⟨by decide, env_install_idempotent "/x" ":" (some "/y:/z") (by decide)⟩

/-- C10: whenever `download_chromedriver` yields the absence signal,
`install` returns the absence signal and leaves the PATH environment
variable exactly as it was — the environment mutation happens only on the
success branch. -/
theorem install_soft_failure_env_unchanged (cwd : Bool) (path : Option String) (no_ssl : Bool)
    (cwdDir : String) (w : World) (fs : FS) (env : Option String)
    (h : (download_chromedriver (if cwd then some cwdDir else path) no_ssl w fs).1 =
      Except.ok none) :
    (install cwd path no_ssl cwdDir w fs env).1 = Except.ok none ∧
    (install cwd path no_ssl cwdDir w fs env).2.2.1 = env := by
  unfold install
  rcases hdl : download_chromedriver (if cwd then some cwdDir else path) no_ssl w fs with
    ⟨r, fs1, evs⟩
  rw [hdl] at h
  simp only at h
  subst h
  simp [hdl]

/-- Concrete world for the C10 witness: browser absent, so the download
step yields the absence signal. -/
def wSoft : World :=
  { sysPlatform := "linux", maxsize := 2 ^ 63, chromeVersion := none, indexKeys := [],
    pathIsDir := true, moduleDir := "/opt/app", localOutput := "",
    archiveResult := Except.ok 200, extractMode := 0o666 }

/-- Initial file-system state for the C10 witness. -/
def fsSoft : FS := { dirExists := false, fileMode := none }

/-- Witness for C10 at a concrete soft-failure run. -/
theorem install_soft_failure_env_unchanged_witness :
    (install false none false "/cwd" wSoft fsSoft (some "/usr/bin")).1 = Except.ok none ∧
    (install false none false "/cwd" wSoft fsSoft (some "/usr/bin")).2.2.1 = some "/usr/bin" :=
  install_soft_failure_env_unchanged false none false "/cwd" wSoft fsSoft (some "/usr/bin")
    (by decide)

/-- C6: in every run of the fetch step — a run that reaches the archive GET
because the browser version is known, a remote version matched, the target
path is valid and the local binary check failed — a transport error or a
non-200 status makes `download_chromedriver` abort with a `RuntimeError`
whose message names the failed URL, and the archive GET appears exactly once
in the network trace (no retry). -/
theorem archive_failure_fatal_no_retry (path : Option String) (no_ssl : Bool) (w : World)
    (fs : FS) (p a cv cdv : String)
    (hplat : get_platform_architecture w.sysPlatform w.maxsize = Except.ok (p, a))
    (hcv : w.chromeVersion = some cv) (hne : (cv == "") = false)
    (hmatch : get_matched_chromedriver_version cv w.indexKeys = some cdv)
    (hpath : (pathTruthy path && !w.pathIsDir) = false)
    (hneed : (!fs.fileMode.isSome ||
        !check_version ⟨fs.fileMode.isSome, accessXOk fs.fileMode, w.localOutput⟩ cdv) = true)
    (hfail : w.archiveResult = Except.error () ∨
        ∃ c, w.archiveResult = Except.ok c ∧ (c != 200) = true) :
    ∃ url, get_chromedriver_url w.sysPlatform w.maxsize cdv no_ssl = Except.ok url ∧
      (download_chromedriver path no_ssl w fs).1 =
        Except.error ("Failed to download chromedriver archive: " ++ url) ∧
      (download_chromedriver path no_ssl w fs).2.2.count Event.archiveGet = 1 := by
  have hurl : get_chromedriver_url w.sysPlatform w.maxsize cdv no_ssl =
      Except.ok ((if no_ssl then "http://chromedriver.storage.googleapis.com/"
          else "https://chromedriver.storage.googleapis.com/") ++ cdv ++
        "/chromedriver_" ++ p ++ a ++ ".zip") := by
    unfold get_chromedriver_url
    rw [hplat]
  refine ⟨_, hurl, ?_⟩
  unfold download_chromedriver
  rw [hplat, hcv]
  simp at hneed
  rcases hfail with harch | ⟨c, harch, hc⟩
  · simp [hne, hmatch, hpath, hneed, hurl, harch, List.count_cons]
  · simp [hne, hmatch, hpath, hneed, hurl, harch, hc, List.count_cons]

/-- Concrete world for the C6 witness: everything in place for a download,
but the archive endpoint answers 404. -/
def wFail : World :=
  { sysPlatform := "linux", maxsize := 2 ^ 63, chromeVersion := some "114.0.5735.90",
    indexKeys := ["2.46/notes.txt", "114.0.5735.90/chromedriver_linux64.zip"],
    pathIsDir := true, moduleDir := "/opt/app", localOutput := "",
    archiveResult := Except.ok 404, extractMode := 0o666 }

/-- Initial file-system state for the C6 witness: nothing on disk. -/
def fsFail : FS := { dirExists := false, fileMode := none }

/-- Witness for C6 at a concrete run whose archive GET answers 404. -/
theorem archive_failure_fatal_no_retry_witness :
    ∃ url, get_chromedriver_url wFail.sysPlatform wFail.maxsize "114.0.5735.90" false =
        Except.ok url ∧
      (download_chromedriver none false wFail fsFail).1 =
        Except.error ("Failed to download chromedriver archive: " ++ url) ∧
      (download_chromedriver none false wFail fsFail).2.2.count Event.archiveGet = 1 :=
  archive_failure_fatal_no_retry none false wFail fsFail "linux" "64" "114.0.5735.90"
    "114.0.5735.90" (by decide) rfl (by decide) (by decide) (by decide) (by decide)
    (Or.inr ⟨404, rfl, by decide⟩)

/-- Concrete world for the C7 counterexample: same failing-archive run. -/
def wDisk : World :=
  { sysPlatform := "linux", maxsize := 2 ^ 63, chromeVersion := some "114.0.5735.90",
    indexKeys := ["114.0.5735.90/chromedriver_linux64.zip"],
    pathIsDir := true, moduleDir := "/opt/app", localOutput := "",
    archiveResult := Except.ok 404, extractMode := 0o666 }

/-- Initial file-system state for the C7 counterexample: nothing on disk. -/
def fsDisk : FS := { dirExists := false, fileMode := none }

/-- C7, counterexample: on a run whose archive GET answers 404, the
operation does raise a hard failure, but `os.makedirs` has already run, so
the version-named directory is left behind and the disk state is *not* as
if no destructive action was taken. -/
theorem archive_failure_changes_disk :
    (download_chromedriver none false wDisk fsDisk).1 =
      Except.error
        ("Failed to download chromedriver archive: " ++
          "https://chromedriver.storage.googleapis.com/114.0.5735.90/chromedriver_linux64.zip") ∧
    (download_chromedriver none false wDisk fsDisk).2.1 ≠ fsDisk ∧
    (download_chromedriver none false wDisk fsDisk).2.1.dirExists = true ∧
    fsDisk.dirExists = false := by
  decide

/-- C7, amended: a non-200 archive response raises a hard failure naming the
attempted URL, and no driver file is written (the file state is untouched,
so in particular no half-written executable exists) — but the version-named
directory has been created by that point and is left behind empty. -/
theorem archive_failure_no_partial_file (path : Option String) (no_ssl : Bool) (w : World)
    (fs : FS) (p a cv cdv : String)
    (hplat : get_platform_architecture w.sysPlatform w.maxsize = Except.ok (p, a))
    (hcv : w.chromeVersion = some cv) (hne : (cv == "") = false)
    (hmatch : get_matched_chromedriver_version cv w.indexKeys = some cdv)
    (hpath : (pathTruthy path && !w.pathIsDir) = false)
    (hneed : (!fs.fileMode.isSome ||
        !check_version ⟨fs.fileMode.isSome, accessXOk fs.fileMode, w.localOutput⟩ cdv) = true)
    (hfail : w.archiveResult = Except.error () ∨
        ∃ c, w.archiveResult = Except.ok c ∧ (c != 200) = true) :
    (∃ url, get_chromedriver_url w.sysPlatform w.maxsize cdv no_ssl = Except.ok url ∧
      (download_chromedriver path no_ssl w fs).1 =
        Except.error ("Failed to download chromedriver archive: " ++ url)) ∧
    (download_chromedriver path no_ssl w fs).2.1.fileMode = fs.fileMode ∧
    (download_chromedriver path no_ssl w fs).2.1.dirExists = true := by
  have hurl : get_chromedriver_url w.sysPlatform w.maxsize cdv no_ssl =
      Except.ok ((if no_ssl then "http://chromedriver.storage.googleapis.com/"
          else "https://chromedriver.storage.googleapis.com/") ++ cdv ++
        "/chromedriver_" ++ p ++ a ++ ".zip") := by
    unfold get_chromedriver_url
    rw [hplat]
  simp at hneed
  rcases hfail with harch | ⟨c, harch, hc⟩
  · refine ⟨⟨_, hurl, ?_⟩, ?_, ?_⟩ <;>
      (unfold download_chromedriver
       rw [hplat, hcv]
       by_cases hdir : fs.dirExists = true <;>
         simp [hne, hmatch, hpath, hneed, hurl, harch, hdir])
  · refine ⟨⟨_, hurl, ?_⟩, ?_, ?_⟩ <;>
      (unfold download_chromedriver
       rw [hplat, hcv]
       by_cases hdir : fs.dirExists = true <;>
         simp [hne, hmatch, hpath, hneed, hurl, harch, hc, hdir])

/-- Concrete world for the C7 (amended) witness. -/
def wDisk2 : World :=
  { sysPlatform := "linux", maxsize := 2 ^ 63, chromeVersion := some "114.0.5735.90",
    indexKeys := ["114.0.5735.90/chromedriver_linux64.zip"],
    pathIsDir := true, moduleDir := "/opt/app", localOutput := "",
    archiveResult := Except.ok 404, extractMode := 0o666 }

/-- Initial file-system state for the C7 (amended) witness. -/
def fsDisk2 : FS := { dirExists := false, fileMode := none }

/-- Witness for C7 (amended) at a concrete 404 run. -/
theorem archive_failure_no_partial_file_witness :
    (∃ url, get_chromedriver_url wDisk2.sysPlatform wDisk2.maxsize "114.0.5735.90" false =
        Except.ok url ∧
      (download_chromedriver none false wDisk2 fsDisk2).1 =
        Except.error ("Failed to download chromedriver archive: " ++ url)) ∧
    (download_chromedriver none false wDisk2 fsDisk2).2.1.fileMode = fsDisk2.fileMode ∧
    (download_chromedriver none false wDisk2 fsDisk2).2.1.dirExists = true :=
  archive_failure_no_partial_file none false wDisk2 fsDisk2 "linux" "64" "114.0.5735.90"
    "114.0.5735.90" (by decide) rfl (by decide) (by decide) (by decide) (by decide)
    (Or.inr ⟨404, rfl, by decide⟩)

/-- Concrete world for the C8 counterexample: the download succeeds and the
extracted file carries mode `0o666` (read/write for everyone, the usual
result of `zipfile.extract` under a zero umask), which lacks the execute
bit. -/
def wChmod : World :=
  { sysPlatform := "linux", maxsize := 2 ^ 63, chromeVersion := some "114.0.5735.90",
    indexKeys := ["114.0.5735.90/chromedriver_linux64.zip"],
    pathIsDir := true, moduleDir := "/opt/app", localOutput := "",
    archiveResult := Except.ok 200, extractMode := 0o666 }

/-- Initial file-system state for the C8 counterexample: nothing on disk. -/
def fsChmod : FS := { dirExists := false, fileMode := none }

/-- C8, counterexample: on this successful run the file is written with mode
`0o666` and the chmod step then *replaces* the mode with `0o744`; the
group/other write bits that were present are cleared, so the claimed
widening (which would give `0o766` and clear nothing) does not describe the
code — `os.chmod(..., 0o744)` overwrites the mode bits. -/
theorem chmod_replaces_not_widens :
    (download_chromedriver none false wChmod fsChmod).1 =
      Except.ok (some "/opt/app/114/chromedriver") ∧
    (download_chromedriver none false wChmod fsChmod).2.1.fileMode = some 0o744 ∧
    wChmod.extractMode = 0o666 ∧
    ¬ wChmod.extractMode &&& 0o744 = wChmod.extractMode := by
  decide

/-- Behaviour of the chmod step (lines 194-195): the resulting file always
carries the execute bit, and its mode is either exactly `0o744` or the
untouched previous mode. -/
theorem fixExecutable_spec (fs0 : FS) :
    ∃ m, (fixExecutable fs0).fileMode = some m ∧ m &&& 0o100 ≠ 0 ∧
      (m = 0o744 ∨ fs0.fileMode = some m) := by
  unfold fixExecutable accessXOk
  cases hm : fs0.fileMode with
  | none => exact ⟨0o744, by simp [hm], by decide, Or.inl rfl⟩
  | some m =>
    by_cases hx : (m &&& 0o100 != 0) = true
    · refine ⟨m, by simp [hm, hx], ?_, Or.inr rfl⟩
      simpa using hx
    · exact ⟨0o744, by simp [hm, hx], by decide, Or.inl rfl⟩

/-- Chmod-step behaviour on a freshly extracted file of mode `e`. -/
theorem fixExecutable_extract (d : Bool) (e : Nat) :
    ∃ m, (fixExecutable { dirExists := d, fileMode := some e }).fileMode = some m ∧
      m &&& 0o100 ≠ 0 ∧ (m = 0o744 ∨ m = e) := by
  obtain ⟨m, hm1, hm2, hm3⟩ := fixExecutable_spec { dirExists := d, fileMode := some e }
  refine ⟨m, hm1, hm2, ?_⟩
  rcases hm3 with h | h
  · exact Or.inl h
  · simp only [Option.some.injEq] at h
    exact Or.inr h.symm

/-- C8, amended: after every successful run of `download_chromedriver` the
driver file is executable — its final mode carries the owner-execute bit —
and that mode is either exactly `0o744` (written by `os.chmod` when the
execute bit was absent) or the untouched mode of the extracted or
pre-existing file; `os.chmod(..., 0o744)` replaces the mode bits rather
than widening them, so previously present group/other write bits may be
cleared (see the counterexample). -/
theorem successful_run_file_executable (path : Option String) (no_ssl : Bool) (w : World)
    (fs : FS) (fp : String)
    (h : (download_chromedriver path no_ssl w fs).1 = Except.ok (some fp)) :
    ∃ m, (download_chromedriver path no_ssl w fs).2.1.fileMode = some m ∧
      m &&& 0o100 ≠ 0 ∧ (m = 0o744 ∨ m = w.extractMode ∨ fs.fileMode = some m) := by
  unfold download_chromedriver at h ⊢
  cases hplat : get_platform_architecture w.sysPlatform w.maxsize with
  | error e => simp [hplat] at h
  | ok pa =>
    obtain ⟨p, a⟩ := pa
    cases hcv : w.chromeVersion with
    | none => simp [hplat, hcv] at h
    | some cv =>
      by_cases hne : (cv == "") = true
      · simp [hplat, hcv, hne] at h
      · cases hmatch : get_matched_chromedriver_version cv w.indexKeys with
        | none => simp [hplat, hcv, hne, hmatch] at h
        | some cdv =>
          by_cases hpath : (pathTruthy path && !w.pathIsDir) = true
          · simp [hplat, hcv, hne, hmatch, hpath] at h
          · have hurl : get_chromedriver_url w.sysPlatform w.maxsize cdv no_ssl =
                Except.ok ((if no_ssl then "http://chromedriver.storage.googleapis.com/"
                    else "https://chromedriver.storage.googleapis.com/") ++ cdv ++
                  "/chromedriver_" ++ p ++ a ++ ".zip") := by
              unfold get_chromedriver_url
              rw [hplat]
            by_cases hneed : (!fs.fileMode.isSome ||
                !check_version ⟨fs.fileMode.isSome, accessXOk fs.fileMode, w.localOutput⟩
                  cdv) = true
            · simp at hneed
              cases harch : w.archiveResult with
              | error u => simp [hplat, hcv, hne, hmatch, hpath, hneed, hurl, harch] at h
              | ok code =>
                by_cases hcode : (code != 200) = true
                · simp [hplat, hcv, hne, hmatch, hpath, hneed, hurl, harch, hcode] at h
                · by_cases hdir : fs.dirExists = true <;>
                    simp [hne, hmatch, hpath, hneed, hurl, harch, hcode, hdir] <;>
                      (obtain ⟨m, hm1, hm2, hm3⟩ := fixExecutable_extract true w.extractMode
                       exact ⟨m, hm1, hm2, hm3.imp id Or.inl⟩)
            · simp at hneed
              simp [hne, hmatch, hpath, hneed]
              obtain ⟨m, hm1, hm2, hm3⟩ := fixExecutable_spec fs
              exact ⟨m, hm1, hm2, hm3.imp id Or.inr⟩

/-- Concrete world for the C8 (amended) witness: a successful download whose
extracted file lacks the execute bit. -/
def wChmod2 : World :=
  { sysPlatform := "linux", maxsize := 2 ^ 63, chromeVersion := some "114.0.5735.90",
    indexKeys := ["114.0.5735.90/chromedriver_linux64.zip"],
    pathIsDir := true, moduleDir := "/opt/app", localOutput := "",
    archiveResult := Except.ok 200, extractMode := 0o666 }

/-- Initial file-system state for the C8 (amended) witness. -/
def fsChmod2 : FS := { dirExists := false, fileMode := none }

/-- Witness for C8 (amended) at a concrete successful run. -/
theorem successful_run_file_executable_witness :
    ∃ m, (download_chromedriver none false wChmod2 fsChmod2).2.1.fileMode = some m ∧
      m &&& 0o100 ≠ 0 ∧
      (m = 0o744 ∨ m = wChmod2.extractMode ∨ fsChmod2.fileMode = some m) :=
  successful_run_file_executable none false wChmod2 fsChmod2 "/opt/app/114/chromedriver"
    (by decide)

end ChromeDriver
